import Mathlib

/-!
Verification of the agent orchestration and artifact-reconciliation pipeline
of the experimental CI bot.  TypeScript sources are shallowly embedded as
executable Lean definitions: strings are manipulated as `List Char` (JavaScript
string operations are modelled by structurally recursive functions so that all
definitions evaluate inside the kernel), fallible code returns `Except`, and
external side effects (git commands, GitHub API calls, file writes) are
represented by explicit effect lists or oracle-supplied inputs.
-/

/-! ## Character-list string utilities (model of the JavaScript string API) -/

/-- Model of JavaScript `String.prototype.trimStart`: drop leading whitespace. -/
def trimLeftChars : List Char → List Char
  | [] => []
  | c :: cs => if c.isWhitespace then trimLeftChars cs else c :: cs

/-- Model of JavaScript `String.prototype.trim`: drop whitespace on both ends. -/
def trimChars (cs : List Char) : List Char :=
  (trimLeftChars (trimLeftChars cs.reverse).reverse)

/-- Model of JavaScript `split(sep)` for a single-character separator. -/
def splitOnChar (sep : Char) : List Char → List (List Char)
  | [] => [[]]
  | c :: cs =>
    let rest := splitOnChar sep cs
    if c = sep then [] :: rest
    else match rest with
      | [] => [[c]]
      | line :: more => (c :: line) :: more

/-- Strip an expected leading segment, returning the remainder on success. -/
def stripLeading : List Char → List Char → Option (List Char)
  | [], cs => some cs
  | _ :: _, [] => none
  | p :: ps, c :: cs => if c = p then stripLeading ps cs else none

/-- Model of JavaScript `startsWith`. -/
def startsWithChars (p cs : List Char) : Bool :=
  (stripLeading p cs).isSome

/-- Decimal value of a digit string, model of `parseInt(s, 10)` on all-digit input. -/
def digitsToNat (cs : List Char) : Nat :=
  cs.foldl (fun acc c => acc * 10 + (c.toNat - '0'.toNat)) 0

/-- Join lines with a newline, model of `Array.prototype.join("\n")`. -/
def joinLinesChars : List (List Char) → List Char
  | [] => []
  | [line] => line
  | line :: rest => line ++ '\n' :: joinLinesChars rest

/-! ## Agent completion parsing (src/types/agentOutput.ts) -/

/-- The decision made by the agent on how to present the fix. -/
inductive AgentDecision where
  | INLINE_SUGGESTIONS
  | PULL_REQUEST
deriving DecidableEq

/-- The parsed output from the agent's completion signal. -/
structure AgentCompletionOutput where
  decision : AgentDecision
  reasoning : String
deriving DecidableEq

/-- One iteration of the `for (const line of lines)` loop of
`parseAgentCompletion`: the accumulator carries the decision recognised so far
and the reasoning accumulator. -/
def completionStep (acc : Option AgentDecision × List Char) (line : List Char) :
    Option AgentDecision × List Char :=
  let (decision, reasoning) := acc
  let trimmedLine := trimChars line
  if startsWithChars "DECISION:".data trimmedLine then
    let decisionValue := trimChars (trimmedLine.drop "DECISION:".data.length)
    if decisionValue = "INLINE_SUGGESTIONS".data then
      (some AgentDecision.INLINE_SUGGESTIONS, reasoning)
    else if decisionValue = "PULL_REQUEST".data then
      (some AgentDecision.PULL_REQUEST, reasoning)
    else (decision, reasoning)
  else if startsWithChars "REASONING:".data trimmedLine then
    (decision, trimChars (trimmedLine.drop "REASONING:".data.length))
  else if !(startsWithChars "COMPLETE_TASK_AND_SUBMIT_FINAL_OUTPUT".data trimmedLine) then
    -- JavaScript source: append to reasoning only when the accumulator is
    -- already non-empty; otherwise both blank and non-blank lines fall
    -- through without changing the accumulator.
    (if reasoning ≠ [] then (decision, reasoning ++ ' ' :: trimmedLine)
     else (decision, reasoning))
  else (decision, reasoning)

/-- The whole scanning loop of `parseAgentCompletion`. -/
def completionScan (lines : List (List Char)) : Option AgentDecision × List Char :=
  lines.foldl completionStep (none, [])

/-- Parse the agent's completion output from the final command
(src/types/agentOutput.ts, decision-bearing variant). -/
def parseAgentCompletion (output : String) : AgentCompletionOutput :=
  let lines := splitOnChar '\n' (trimChars output.data)
  let scanned := completionScan lines
  match scanned.1 with
  | some d => { decision := d, reasoning := String.mk scanned.2 }
  | none =>
    { decision := AgentDecision.PULL_REQUEST
      reasoning :=
        if scanned.2 = [] then "Agent did not specify a decision, defaulting to PR"
        else String.mk scanned.2 }

/-- C2: parseAgentCompletion is total: every input yields a decision that is one
of the two known enum values, and when the scanning loop recognises no decision
line the decision defaults to PULL_REQUEST. -/
theorem parseAgentCompletion_total_with_default (s : String) :
    ((parseAgentCompletion s).decision = AgentDecision.INLINE_SUGGESTIONS ∨
      (parseAgentCompletion s).decision = AgentDecision.PULL_REQUEST) ∧
    ((completionScan (splitOnChar '\n' (trimChars s.data))).1 = none →
      (parseAgentCompletion s).decision = AgentDecision.PULL_REQUEST) := by
  unfold parseAgentCompletion
  cases h : (completionScan (splitOnChar '\n' (trimChars s.data))).1 with
  | none => simp [h]
  | some d =>
    cases d <;> simp [h]

/-- Witness for C2 at the input "DECISION: MAYBE": the unrecognised decision
value is ignored and the decision defaults to PULL_REQUEST. -/
theorem parseAgentCompletion_total_with_default_witness :
    (parseAgentCompletion "DECISION: MAYBE").decision = AgentDecision.PULL_REQUEST :=
  (parseAgentCompletion_total_with_default "DECISION: MAYBE").2 (by decide)

/-- C3: evaluating the parser at a submission consisting of a single non-blank
free-form line (no REASONING: prefix) shows the line is dropped, not appended:
the returned reasoning is the synthetic default, so it does not contain the
free-form text, contradicting the specified append-to-accumulator behaviour. -/
theorem parseAgentCompletion_drops_free_form_text :
    parseAgentCompletion "Fixed the lint error by renaming the variable" =
      { decision := AgentDecision.PULL_REQUEST
        reasoning := "Agent did not specify a decision, defaulting to PR" } := by
  decide

/-- C10 counterexample: a submission with a recognised decision line and no
reasoning yields an empty reasoning string, so parseAgentCompletion does not
return a non-empty reasoning for every input. -/
theorem parseAgentCompletion_empty_reasoning_counterexample :
    (parseAgentCompletion "DECISION: PULL_REQUEST").reasoning = "" := by
  decide

/-- C10 (amended): whenever the scanning loop recognises no decision line, the
returned reasoning is non-empty — either the captured reasoning or the fixed
synthetic sentence. -/
theorem parseAgentCompletion_reasoning_nonempty_of_no_decision (s : String)
    (h : (completionScan (splitOnChar '\n' (trimChars s.data))).1 = none) :
    (parseAgentCompletion s).reasoning ≠ "" := by
  unfold parseAgentCompletion
  simp only [h]
  cases h2 : (completionScan (splitOnChar '\n' (trimChars s.data))).2 with
  | nil => simp [h2]
  | cons c cs =>
    simp [h2]
    intro hmk
    have : (String.mk (c :: cs)).data = ("" : String).data := by rw [hmk]
    simp at this

/-- Witness for the amended C10 at the empty submission: no decision line is
recognised and the returned reasoning is non-empty. -/
theorem parseAgentCompletion_reasoning_nonempty_witness :
    (parseAgentCompletion "").reasoning ≠ "" :=
  parseAgentCompletion_reasoning_nonempty_of_no_decision "" (by decide)

/-! ## Eligibility gate (src/generate-pr-patch/main.ts) -/

/-- Repository reference carried on a pull request branch in event payloads. -/
structure RepoRef where
  id : Nat
deriving DecidableEq

/-- One side (head or base) of a pull request in a workflow-run event payload;
`repo` and `ref` are optional because the payload is loosely typed. -/
structure EventPrBranch where
  repo : Option RepoRef
  ref : Option String
deriving DecidableEq

/-- A pull request as carried in the `workflow_run.pull_requests` array. -/
structure EventPullRequest where
  head : EventPrBranch
  base : EventPrBranch
deriving DecidableEq

/-- The `workflow_run` object of the triggering event payload. -/
structure WorkflowRunData where
  pull_requests : Option (List EventPullRequest)
  conclusion : Option String
deriving DecidableEq

/-- The `repository` object of the triggering event payload. -/
structure EventRepository where
  default_branch : Option String
deriving DecidableEq

/-- The triggering workflow-run event payload as consumed by the gate. -/
structure WorkflowRunEventPayload where
  workflow_run : Option WorkflowRunData
  repository : Option EventRepository
deriving DecidableEq

/-- Eligibility gate `isPullRequestEligibleForFix`
(src/generate-pr-patch/main.ts): exactly one associated pull request, non-fork,
failing conclusion, targeting the default branch. -/
def isPullRequestEligibleForFix (payload : WorkflowRunEventPayload) : Bool :=
  match payload.workflow_run with
  | none => false
  | some workflowRun =>
    match workflowRun.pull_requests with
    | none => false
    | some prs =>
      if prs.length ≠ 1 then false
      else match prs.head? with
        | none => false
        | some pullRequest =>
          if pullRequest.head.repo.map RepoRef.id ≠ pullRequest.base.repo.map RepoRef.id then
            false
          else if workflowRun.conclusion ≠ some "failure" then false
          else if pullRequest.base.ref ≠ payload.repository.bind EventRepository.default_branch then
            false
          else true

/-- C4: the eligibility gate returns true exactly when the run is associated
with exactly one pull request, that pull request's head repository id equals
its base repository id, the run concluded in failure, and the pull request's
base ref equals the repository's default branch; it returns false whenever any
of the four conditions fails. -/
theorem isPullRequestEligibleForFix_iff (payload : WorkflowRunEventPayload) :
    isPullRequestEligibleForFix payload = true ↔
      ∃ workflowRun pullRequest,
        payload.workflow_run = some workflowRun ∧
        workflowRun.pull_requests = some [pullRequest] ∧
        pullRequest.head.repo.map RepoRef.id = pullRequest.base.repo.map RepoRef.id ∧
        workflowRun.conclusion = some "failure" ∧
        pullRequest.base.ref = payload.repository.bind EventRepository.default_branch := by
  constructor
  · intro h
    unfold isPullRequestEligibleForFix at h
    cases hwr : payload.workflow_run with
    | none => simp only [hwr] at h; simp at h
    | some workflowRun =>
      simp only [hwr] at h
      cases hprs : workflowRun.pull_requests with
      | none => simp only [hprs] at h; simp at h
      | some prs =>
        simp only [hprs] at h
        cases prs with
        | nil => simp at h
        | cons pr rest =>
          cases rest with
          | nil =>
            simp at h
            exact ⟨workflowRun, pr, rfl, hprs, h.1, h.2.1, h.2.2⟩
          | cons p2 rest2 => simp at h
  · rintro ⟨workflowRun, pr, hwr, hprs, h1, h2, h3⟩
    unfold isPullRequestEligibleForFix
    simp only [hwr, hprs]
    simp [h1, h2, h3]

/-! ## Follow-up PR creation (gitClient.ts, both variants) -/

/-- Result of creating a follow-up pull request. -/
structure FollowupPrResult where
  number : Nat
  id : Nat
  htmlUrl : String
deriving DecidableEq

/-- One side of a pull request as returned by the GitHub get-PR API. -/
structure PrDataBranch where
  sha : String
  ref : String
  repo : Option RepoRef
deriving DecidableEq

/-- A pull request as returned by the GitHub get-PR API (`PullRequestData`),
restricted to the fields the pipeline consumes. -/
structure PullRequestData where
  number : Nat
  head : PrDataBranch
  base : PrDataBranch
deriving DecidableEq

/-- The GitHub create-PR API response fields consumed by the pipeline; supplied
as an oracle input since the API is external. -/
structure CreatedPullRequest where
  number : Nat
  id : Nat
  html_url : String
deriving DecidableEq

/-- External side effects performed by follow-up PR creation, in order. -/
inductive GitEffect where
  | cloneRepo
  | checkoutNewBranch (name : String)
  | applyPatch
  | setConfig (key value : String)
  | addAll
  | commit (message : String)
  | push (branch : String)
  | createPullRequest (base head : String)
deriving DecidableEq

/-- `createFollowupPr` (gitClient.ts): guards, then clone, branch, patch,
status check, commit, push and PR creation.  The git `status` output, the
timestamp and the created-PR response are oracle inputs; the returned list
records the side effects actually performed. -/
def createFollowupPr (pullRequest : PullRequestData) (diff status : String) (now : Nat)
    (created : CreatedPullRequest) : Option FollowupPrResult × List GitEffect :=
  let trimmedDiff := trimChars diff.data
  if trimmedDiff = [] then (none, [])
  else if (pullRequest.base.repo.map RepoRef.id).getD 0 = 0 then (none, [])
  else if pullRequest.head.repo.map RepoRef.id ≠ pullRequest.base.repo.map RepoRef.id then
    (none, [])
  else
    let fixBranchName := "tensorzero/pr-" ++ toString pullRequest.number ++ "-" ++ toString now
    let beforeStatus := [GitEffect.cloneRepo, GitEffect.checkoutNewBranch fixBranchName,
      GitEffect.applyPatch]
    if trimChars status.data = [] then (none, beforeStatus)
    else
      (some { number := created.number, id := created.id, htmlUrl := created.html_url },
        beforeStatus ++
          [GitEffect.setConfig "user.email" "hello@tensorzero.com",
           GitEffect.setConfig "user.name" "TensorZero-Experimental-CI-Bot[bot]",
           GitEffect.addAll,
           GitEffect.commit ("chore: automated fix for PR #" ++ toString pullRequest.number),
           GitEffect.push fixBranchName,
           GitEffect.createPullRequest pullRequest.head.ref fixBranchName])

/-- `createFollowupPrFromWorkingDir` (gitClient.ts): fork check, status check,
then branch, commit, push and PR creation directly from the agent's working
directory. -/
def createFollowupPrFromWorkingDir (pullRequest : PullRequestData) (status : String) (now : Nat)
    (created : CreatedPullRequest) : Option FollowupPrResult × List GitEffect :=
  if pullRequest.base.repo.map RepoRef.id ≠ pullRequest.head.repo.map RepoRef.id then (none, [])
  else if trimChars status.data = [] then (none, [])
  else
    let fixBranchName := "tensorzero/pr-" ++ toString pullRequest.number ++ "-" ++ toString now
    (some { number := created.number, id := created.id, htmlUrl := created.html_url },
      [GitEffect.checkoutNewBranch fixBranchName,
       GitEffect.setConfig "user.email" "hello@tensorzero.com",
       GitEffect.setConfig "user.name" "TensorZero-Experimental-CI-Bot[bot]",
       GitEffect.addAll,
       GitEffect.commit ("chore: automated fix for PR #" ++ toString pullRequest.number),
       GitEffect.push fixBranchName,
       GitEffect.createPullRequest pullRequest.head.ref fixBranchName])

/-- C5: for a fork-origin pull request (head repository id differs from base
repository id) the eligibility gate returns false, and both follow-up PR
creation paths return no result and perform no side effects at all — no
branch, commit, push or PR. -/
theorem fork_pr_never_gets_followup :
    (∀ (payload : WorkflowRunEventPayload) (workflowRun : WorkflowRunData)
        (pr : EventPullRequest),
      payload.workflow_run = some workflowRun →
      workflowRun.pull_requests = some [pr] →
      pr.head.repo.map RepoRef.id ≠ pr.base.repo.map RepoRef.id →
      isPullRequestEligibleForFix payload = false) ∧
    (∀ (pullRequest : PullRequestData) (diff status : String) (now : Nat)
        (created : CreatedPullRequest),
      pullRequest.head.repo.map RepoRef.id ≠ pullRequest.base.repo.map RepoRef.id →
      createFollowupPr pullRequest diff status now created = (none, [])) ∧
    (∀ (pullRequest : PullRequestData) (status : String) (now : Nat)
        (created : CreatedPullRequest),
      pullRequest.base.repo.map RepoRef.id ≠ pullRequest.head.repo.map RepoRef.id →
      createFollowupPrFromWorkingDir pullRequest status now created = (none, [])) := by
  refine ⟨?_, ?_, ?_⟩
  · intro payload workflowRun pr hwr hprs hfork
    unfold isPullRequestEligibleForFix
    simp [hwr, hprs, hfork]
  · intro pullRequest diff status now created hfork
    unfold createFollowupPr
    by_cases h1 : trimChars diff.data = []
    · simp [h1]
    · by_cases h2 : (pullRequest.base.repo.map RepoRef.id).getD 0 = 0
      · simp [h1, h2]
      · simp [h1, h2, hfork]
  · intro pullRequest status now created hfork
    unfold createFollowupPrFromWorkingDir
    have : pullRequest.base.repo.map RepoRef.id ≠ pullRequest.head.repo.map RepoRef.id :=
      hfork
    simp [this]

/-- Witness for C5 at a concrete fork-origin pull request. -/
theorem fork_pr_never_gets_followup_witness :
    createFollowupPrFromWorkingDir
      { number := 7,
        head := { sha := "h", ref := "feature", repo := some { id := 2 } },
        base := { sha := "b", ref := "main", repo := some { id := 1 } } }
      " M file.ts" 1700000000000 { number := 8, id := 99, html_url := "u" } = (none, []) :=
  fork_pr_never_gets_followup.2.2
    { number := 7,
      head := { sha := "h", ref := "feature", repo := some { id := 2 } },
      base := { sha := "b", ref := "main", repo := some { id := 1 } } }
    " M file.ts" 1700000000000 { number := 8, id := 99, html_url := "u" } (by decide)

/-! ## Patch manifest data model (src/artifacts/pullRequestPatchManifest.ts) -/

/-- `pullRequest.author` block of the manifest. -/
structure ManifestAuthor where
  login : Option String
  id : Option Int
deriving DecidableEq

/-- `workflowRun` block of the manifest. -/
structure ManifestWorkflowRun where
  id : Int
  attempt : Option Int
  name : Option String
  headBranch : Option String
deriving DecidableEq

/-- `repository` block of the manifest. -/
structure ManifestRepository where
  owner : String
  name : String
deriving DecidableEq

/-- `pullRequest` block of the manifest. -/
structure ManifestPullRequest where
  number : Int
  headSha : String
  headRef : String
  baseSha : String
  baseRef : String
  htmlUrl : Option String
  headRepositoryId : Option Int
  baseRepositoryId : Option Int
  author : Option ManifestAuthor
deriving DecidableEq

/-- `outputs` block of the manifest: artifact-relative sibling paths. -/
structure ManifestOutputs where
  generatedPatchPath : Option String
  generatedCommentPath : Option String
  commandsPath : Option String
  llmResponsePath : Option String
  failureLogsPath : Option String
  workflowJobsPath : Option String
deriving DecidableEq

/-- `llm` block of the manifest. -/
structure ManifestLlm where
  inferenceId : String
  responseId : String
  episodeId : Option String
deriving DecidableEq

/-- `tensorZero` block of the manifest. -/
structure ManifestTensorZero where
  diffPatchedMetricName : String
deriving DecidableEq

/-- `metadata` block of the manifest. -/
structure ManifestMetadata where
  hasDiff : Bool
  hasComment : Bool
  hasCommands : Bool
deriving DecidableEq

/-- The versioned cross-phase patch manifest (`PullRequestPatchManifest`). -/
structure PullRequestPatchManifest where
  schemaVersion : Int
  artifactVersion : String
  createdAt : String
  workflowRun : ManifestWorkflowRun
  repository : ManifestRepository
  pullRequest : ManifestPullRequest
  outputs : ManifestOutputs
  llm : ManifestLlm
  tensorZero : ManifestTensorZero
  metadata : ManifestMetadata
deriving DecidableEq

/-- The implementation's schema-version constant `PATCH_MANIFEST_SCHEMA_VERSION`. -/
def PATCH_MANIFEST_SCHEMA_VERSION : Int := 1

/-! ## Privileged apply phase: drift detection (apply-pr-artifacts, part_010) -/

/-- `detectPullRequestDrift`: compare the live PR's head/base SHAs against the
manifest's recorded values; a mismatch yields the drift reason. -/
def detectPullRequestDrift (manifest : PullRequestPatchManifest)
    (pullRequest : PullRequestData) : Option String :=
  if pullRequest.head.sha ≠ manifest.pullRequest.headSha then
    some ("Pull request head SHA has changed (was " ++ manifest.pullRequest.headSha ++
      ", now " ++ pullRequest.head.sha ++ ").")
  else if pullRequest.base.sha ≠ manifest.pullRequest.baseSha then
    some ("Pull request base SHA has changed (was " ++ manifest.pullRequest.baseSha ++
      ", now " ++ pullRequest.base.sha ++ ").")
  else none

/-- `ensureDiffIsSafe`: empty diff passes through, oversized diff is a fatal
error, otherwise the trimmed diff is returned. -/
def ensureDiffIsSafe (diff : String) : Except String String :=
  let trimmed := trimChars diff.data
  if trimmed = [] then Except.ok ""
  else if trimmed.length > 500000 then
    Except.error "Generated diff exceeds safe length of 500000 characters."
  else Except.ok (String.mk trimmed)

/-- Outcome of the privileged apply phase after fetching the live PR: whether
it was cancelled due to drift, and whether follow-up PR creation was attempted. -/
structure ApplyPhaseOutcome where
  cancelledDueToDrift : Option String
  attemptedFollowupPr : Bool
deriving DecidableEq

/-- Tail of the apply-phase `run()` (part_010) after the manifest has been
validated and the authoritative PR fetched: on drift, `cancelDueToDrift` logs
and `run` returns normally (exit 0) without touching the artifacts; otherwise
the diff artifact is size-checked and, when non-empty, follow-up PR creation
is attempted. -/
def applyPhaseAfterValidation (manifest : PullRequestPatchManifest)
    (livePullRequest : PullRequestData) (rawDiffContent : String) :
    Except String ApplyPhaseOutcome :=
  match detectPullRequestDrift manifest livePullRequest with
  | some reason =>
    Except.ok { cancelledDueToDrift := some reason, attemptedFollowupPr := false }
  | none =>
    match ensureDiffIsSafe rawDiffContent with
    | Except.error e => Except.error e
    | Except.ok diffContent =>
      Except.ok { cancelledDueToDrift := none, attemptedFollowupPr := diffContent ≠ "" }

/-- C1: if the live head or base SHA differs from the manifest's recorded
values, the apply phase returns successfully (a cancellation, not an error)
with a drift reason and without attempting follow-up PR creation. -/
theorem apply_phase_drift_cancels (manifest : PullRequestPatchManifest)
    (livePullRequest : PullRequestData) (rawDiffContent : String)
    (h : livePullRequest.head.sha ≠ manifest.pullRequest.headSha ∨
      livePullRequest.base.sha ≠ manifest.pullRequest.baseSha) :
    ∃ reason, applyPhaseAfterValidation manifest livePullRequest rawDiffContent =
      Except.ok { cancelledDueToDrift := some reason, attemptedFollowupPr := false } := by
  unfold applyPhaseAfterValidation detectPullRequestDrift
  by_cases hh : livePullRequest.head.sha = manifest.pullRequest.headSha
  · have hb : livePullRequest.base.sha ≠ manifest.pullRequest.baseSha := by
      rcases h with h | h
      · exact absurd hh h
      · exact h
    simp [hh, hb]
  · simp [hh]

/-- A concrete manifest used to witness the drift-cancellation theorem. -/
def sampleDriftManifest : PullRequestPatchManifest := {
  schemaVersion := 1
  artifactVersion := "v1"
  createdAt := "t"
  workflowRun := { id := 555, attempt := none, name := none, headBranch := none }
  repository := { owner := "tensorzero", name := "repo" }
  pullRequest := {
    number := 42
    headSha := "aaa"
    headRef := "feature"
    baseSha := "bbb"
    baseRef := "main"
    htmlUrl := none
    headRepositoryId := none
    baseRepositoryId := none
    author := none
  }
  outputs := {
    generatedPatchPath := none
    generatedCommentPath := none
    commandsPath := none
    llmResponsePath := none
    failureLogsPath := none
    workflowJobsPath := none
  }
  llm := { inferenceId := "i", responseId := "r", episodeId := none }
  tensorZero := { diffPatchedMetricName := "m" }
  metadata := { hasDiff := true, hasComment := false, hasCommands := false }
}

/-- A concrete live pull request whose head SHA differs from the recorded one. -/
def sampleDriftedLivePr : PullRequestData := {
  number := 42
  head := { sha := "ccc", ref := "feature", repo := some { id := 1 } }
  base := { sha := "bbb", ref := "main", repo := some { id := 1 } }
}

/-- Witness for C1 at a concrete manifest and live PR whose head SHA changed. -/
theorem apply_phase_drift_cancels_witness :
    ∃ reason,
      applyPhaseAfterValidation sampleDriftManifest sampleDriftedLivePr "diff --git a/x b/x" =
        Except.ok { cancelledDueToDrift := some reason, attemptedFollowupPr := false } :=
  apply_phase_drift_cancels sampleDriftManifest sampleDriftedLivePr "diff --git a/x b/x"
    (Or.inl (by decide))

/-! ## Artifact path resolution (apply-pr-artifacts `resolveArtifactPath`) -/

/-- Join path segments with `'/'`, model of joining in node's path module. -/
def joinWithChar (sep : Char) : List (List Char) → List Char
  | [] => []
  | [seg] => seg
  | seg :: rest => seg ++ sep :: joinWithChar sep rest

/-- Process `.` and `..` segments the way node's `normalizeString` does:
`..` pops a previous segment; above the root it is kept only when
`allowAboveRoot` is set (relative paths). -/
def dotSegmentStack (allowAboveRoot : Bool) (segs : List (List Char)) : List (List Char) :=
  (segs.foldl
    (fun stack seg =>
      if seg = ['.', '.'] then
        match stack with
        | [] => if allowAboveRoot then [seg] else []
        | top :: rest =>
          if top = ['.', '.'] then (if allowAboveRoot then seg :: stack else stack)
          else rest
      else seg :: stack)
    []).reverse

/-- Split a path on `'/'` and drop empty and `.` segments. -/
def pathSegments (cs : List Char) : List (List Char) :=
  (splitOnChar '/' cs).filter (fun seg => decide (seg ≠ []) && decide (seg ≠ ['.']))

/-- Model of node's `path.posix.normalize`. -/
def posixNormalize (p : String) : String :=
  if p.data = [] then "."
  else
    let isAbs := startsWithChars "/".data p.data
    let trailingSep := startsWithChars "/".data p.data.reverse
    let stack := dotSegmentStack (!isAbs) (pathSegments p.data)
    let body := joinWithChar '/' stack
    if body = [] then (if isAbs then "/" else if trailingSep then "./" else ".")
    else
      String.mk ((if isAbs then '/' :: body else body) ++ (if trailingSep then ['/'] else []))

/-- Model of node's `path.resolve(base, rel)` on a POSIX platform, with the
process working directory supplied explicitly (node falls back to it when no
argument is absolute; it is always an absolute path). -/
def pathResolve (cwd base rel : String) : String :=
  let joined :=
    if startsWithChars "/".data rel.data then rel.data
    else if startsWithChars "/".data base.data then base.data ++ '/' :: rel.data
    else cwd.data ++ '/' :: base.data ++ '/' :: rel.data
  String.mk ('/' :: joinWithChar '/' (dotSegmentStack false (pathSegments joined)))

/-- Model of node's single-argument `path.resolve(p)` on a POSIX platform. -/
def pathResolveOne (cwd p : String) : String :=
  let joined :=
    if startsWithChars "/".data p.data then p.data else cwd.data ++ '/' :: p.data
  String.mk ('/' :: joinWithChar '/' (dotSegmentStack false (pathSegments joined)))

/-- `resolveArtifactPath` (apply-pr-artifacts): normalise the manifest-supplied
relative path, reject `../`-leading or absolute results, resolve it against the
artifact base directory and reject anything that escapes the base. -/
def resolveArtifactPath (cwd baseDir relativePath : String) : Except String String :=
  let normalized := posixNormalize relativePath
  if startsWithChars "../".data normalized.data || startsWithChars "/".data normalized.data then
    Except.error ("Artifact path escapes base directory: " ++ relativePath)
  else
    let base := pathResolveOne cwd baseDir
    let resolved := pathResolve cwd baseDir normalized
    if !(startsWithChars (base.data ++ ['/']) resolved.data) && resolved ≠ base then
      Except.error ("Artifact path escapes base directory: " ++ relativePath)
    else Except.ok resolved

/-- C7: artifact-path resolution throws whenever the POSIX-normalised path
begins with `../` or is absolute; every successfully resolved path lies inside
the artifact base directory (it is the base itself or extends it past a `/`);
and the concrete traversal attempt `../../etc/passwd` is rejected. -/
theorem resolveArtifactPath_traversal_guard :
    (∀ cwd baseDir relativePath,
      (startsWithChars "../".data (posixNormalize relativePath).data = true ∨
        startsWithChars "/".data (posixNormalize relativePath).data = true) →
      ∃ e, resolveArtifactPath cwd baseDir relativePath = Except.error e) ∧
    (∀ cwd baseDir relativePath resolved,
      resolveArtifactPath cwd baseDir relativePath = Except.ok resolved →
      resolved = pathResolveOne cwd baseDir ∨
        startsWithChars ((pathResolveOne cwd baseDir).data ++ ['/']) resolved.data = true) ∧
    (∃ e, resolveArtifactPath "/" "/artifacts" "../../etc/passwd" = Except.error e) := by
  refine ⟨?_, ?_, ?_⟩
  · intro cwd baseDir relativePath h
    unfold resolveArtifactPath
    have hcond : (startsWithChars "../".data (posixNormalize relativePath).data ||
        startsWithChars "/".data (posixNormalize relativePath).data) = true := by
      rcases h with h | h <;> simp [h]
    simp [hcond]
  · intro cwd baseDir relativePath resolved h
    unfold resolveArtifactPath at h
    simp only [] at h
    split at h
    · exact absurd h (by simp)
    · split at h
      · exact absurd h (by simp)
      · rename_i hguard hcond
        injection h with h
        by_cases hsw : startsWithChars ((pathResolveOne cwd baseDir).data ++ ['/'])
            (pathResolve cwd baseDir (posixNormalize relativePath)).data = true
        · right
          rw [← h]
          exact hsw
        · left
          rw [← h]
          by_contra hne
          have hsw' : startsWithChars ((pathResolveOne cwd baseDir).data ++ ['/'])
              (pathResolve cwd baseDir (posixNormalize relativePath)).data = false := by
            revert hsw
            cases startsWithChars ((pathResolveOne cwd baseDir).data ++ ['/'])
              (pathResolve cwd baseDir (posixNormalize relativePath)).data <;> simp
          exact hcond (by simp [hsw', hne])
  · exact ⟨"Artifact path escapes base directory: ../../etc/passwd", by rfl⟩

/-- Witness for C7: a benign relative path resolves to a location inside the
artifact base directory. -/
theorem resolveArtifactPath_traversal_guard_witness :
    "/artifacts/generated-patch.diff" = pathResolveOne "/" "/artifacts" ∨
      startsWithChars ((pathResolveOne "/" "/artifacts").data ++ ['/'])
        "/artifacts/generated-patch.diff".data = true :=
  resolveArtifactPath_traversal_guard.2.1 "/" "/artifacts" "generated-patch.diff"
    "/artifacts/generated-patch.diff" (by rfl)

/-! ## Followup lifecycle manager (src/close-followup-prs) -/

/-- Head branch of a pull request listed by the GitHub list-PRs API. -/
structure ListedPrHead where
  ref : String
deriving DecidableEq

/-- A pull request as returned by the list-PRs API call of `findFollowupPrs`
(already restricted to state "open" and base = the parent's head branch by the
API query). -/
structure ListedPullRequest where
  number : Nat
  id : Nat
  html_url : String
  head : ListedPrHead
deriving DecidableEq

/-- `FollowupPrInfo` (src/close-followup-prs/types.ts). -/
structure FollowupPrInfo where
  number : Nat
  id : Nat
  htmlUrl : String
  headRef : String
deriving DecidableEq

/-- Model of `branchMatch` in `findFollowupPrs`: match the head branch against
the anchored regular expression for `tensorzero/pr-<digits>-<digits>` and
return the parsed embedded PR number (`parseInt` of the first capture). -/
def followupBranchNumber? (cs : List Char) : Option Nat :=
  match stripLeading "tensorzero/pr-".data cs with
  | none => none
  | some rest =>
    let ds := rest.takeWhile Char.isDigit
    let rest2 := rest.dropWhile Char.isDigit
    if ds = [] then none
    else match rest2 with
      | '-' :: ts =>
        if ts ≠ [] ∧ ts.all Char.isDigit = true then some (digitsToNat ds) else none
      | _ => none

/-- `findFollowupPrs` (src/close-followup-prs): keep the listed PRs whose head
branch matches the bot's naming convention with an embedded number equal to
the parent PR's number. -/
def findFollowupPrs (prs : List ListedPullRequest) (basePrNumber : Nat) :
    List FollowupPrInfo :=
  prs.filterMap (fun pr =>
    match followupBranchNumber? pr.head.ref.data with
    | none => none
    | some prNumberInBranch =>
      if prNumberInBranch = basePrNumber then
        some { number := pr.number, id := pr.id, htmlUrl := pr.html_url,
               headRef := pr.head.ref }
      else none)

/-- The branch matcher succeeds with value `k` exactly on branch names of the
form `tensorzero/pr-<digits>-<digits>` whose first digit block has decimal
value `k`. -/
theorem followupBranchNumber?_eq_some (cs : List Char) (k : Nat) :
    followupBranchNumber? cs = some k ↔
      ∃ ds ts : List Char,
        cs = "tensorzero/pr-".data ++ ds ++ '-' :: ts ∧
        ds ≠ [] ∧ ds.all Char.isDigit = true ∧
        ts ≠ [] ∧ ts.all Char.isDigit = true ∧
        digitsToNat ds = k := by
  have strip_iff : ∀ (p cs r : List Char), stripLeading p cs = some r ↔ cs = p ++ r := by
    intro p
    induction p with
    | nil => intro cs r; simp [stripLeading]
    | cons pc ps ih =>
      intro cs r
      cases cs with
      | nil => simp [stripLeading]
      | cons c cs' =>
        by_cases hc : c = pc
        · subst hc
          simp [stripLeading, ih]
        · simp [stripLeading, hc]
  constructor
  · intro h
    unfold followupBranchNumber? at h
    cases hstrip : stripLeading "tensorzero/pr-".data cs with
    | none => rw [hstrip] at h; exact absurd h (by simp)
    | some rest =>
      rw [hstrip] at h
      simp only [] at h
      split at h
      · exact absurd h (by simp)
      · rename_i hds
        split at h
        · rename_i ts hrest2
          split at h
          · rename_i hts
            injection h with hk
            refine ⟨rest.takeWhile Char.isDigit, ts, ?_, hds, ?_, hts.1, hts.2, hk⟩
            · rw [(strip_iff _ _ _).mp hstrip]
              nth_rewrite 1 [← List.takeWhile_append_dropWhile Char.isDigit rest]
              rw [hrest2]
              simp
            · exact List.all_takeWhile
          · exact absurd h (by simp)
        · exact absurd h (by simp)
  · rintro ⟨ds, ts, hcs, hds, hdsall, hts, htsall, hk⟩
    subst hcs
    unfold followupBranchNumber?
    have hstrip : stripLeading "tensorzero/pr-".data
        ("tensorzero/pr-".data ++ ds ++ '-' :: ts) = some (ds ++ '-' :: ts) :=
      (strip_iff _ _ _).mpr (by simp)
    rw [hstrip]
    have htake : (ds ++ '-' :: ts).takeWhile Char.isDigit = ds := by
      rw [List.takeWhile_append_of_pos (by simpa using hdsall)]
      simp
    have hdrop : (ds ++ '-' :: ts).dropWhile Char.isDigit = '-' :: ts := by
      rw [List.dropWhile_append_of_pos (by simpa using hdsall)]
      simp
    simp only [htake, hdrop]
    rw [if_neg (by simpa using hds)]
    rw [if_pos ⟨hts, htsall⟩]
    rw [hk]

/-- C9: a listed PR is selected for closing exactly when its head branch
matches `tensorzero/pr-<digits>-<digits>` and the embedded number equals the
parent PR's number; any open PR whose head branch does not match or embeds a
different number is never selected. -/
theorem findFollowupPrs_selects_exactly (prs : List ListedPullRequest)
    (basePrNumber : Nat) (info : FollowupPrInfo) :
    info ∈ findFollowupPrs prs basePrNumber ↔
      ∃ pr, pr ∈ prs ∧
        info = { number := pr.number, id := pr.id, htmlUrl := pr.html_url,
                 headRef := pr.head.ref } ∧
        ∃ ds ts : List Char,
          pr.head.ref.data = "tensorzero/pr-".data ++ ds ++ '-' :: ts ∧
          ds ≠ [] ∧ ds.all Char.isDigit = true ∧
          ts ≠ [] ∧ ts.all Char.isDigit = true ∧
          digitsToNat ds = basePrNumber := by
  unfold findFollowupPrs
  rw [List.mem_filterMap]
  constructor
  · rintro ⟨pr, hmem, hf⟩
    cases hb : followupBranchNumber? pr.head.ref.data with
    | none => rw [hb] at hf; exact absurd hf (by simp)
    | some n =>
      rw [hb] at hf
      simp only [] at hf
      split at hf
      · rename_i hn
        injection hf with hf
        obtain ⟨ds, ts, hdec, hds, hdsall, hts, htsall, hk⟩ :=
          (followupBranchNumber?_eq_some pr.head.ref.data n).mp hb
        exact ⟨pr, hmem, hf.symm, ds, ts, hdec, hds, hdsall, hts, htsall, by rw [hk, hn]⟩
      · exact absurd hf (by simp)
  · rintro ⟨pr, hmem, hinfo, ds, ts, hdec, hds, hdsall, hts, htsall, hk⟩
    refine ⟨pr, hmem, ?_⟩
    have hb : followupBranchNumber? pr.head.ref.data = some basePrNumber :=
      (followupBranchNumber?_eq_some pr.head.ref.data basePrNumber).mpr
        ⟨ds, ts, hdec, hds, hdsall, hts, htsall, hk⟩
    rw [hb]
    simp [hinfo]

/-! ## Review suggestions from the working-copy diff (src/githubReviewComments.ts) -/

/-- A hunk in a git diff (`DiffHunk`). -/
structure DiffHunk where
  startLine : Nat
  lineCount : Nat
  content : String
  suggestedContent : String
deriving DecidableEq

/-- A single file change with hunks (`FileChange`). -/
structure FileChange where
  path : String
  hunks : List DiffHunk
deriving DecidableEq

/-- A review comment to post on GitHub (`ReviewComment`). -/
structure ReviewComment where
  path : String
  line : Nat
  body : String
deriving DecidableEq

/-- Match the hunk-header regular expression at the start of the given text:
two at-signs, whitespace, minus, digits, optional comma-digits, whitespace,
plus, digits (first capture), optional comma-digits (second capture),
whitespace, two at-signs.  Greedy matching without backtracking coincides with
the regex here because every repeated class is disjoint from its successor. -/
def matchHunkAt : List Char → Option (Nat × Option Nat)
  | '@' :: '@' :: rest =>
    let r1 := rest.dropWhile Char.isWhitespace
    if rest.takeWhile Char.isWhitespace = [] then none
    else match r1 with
      | '-' :: r2 =>
        let d1 := r2.takeWhile Char.isDigit
        let r3 := r2.dropWhile Char.isDigit
        if d1 = [] then none
        else
          let r4 := match r3 with
            | ',' :: r3' => if r3'.takeWhile Char.isDigit = [] then r3
                            else r3'.dropWhile Char.isDigit
            | _ => r3
          let r5 := r4.dropWhile Char.isWhitespace
          if r4.takeWhile Char.isWhitespace = [] then none
          else match r5 with
            | '+' :: r6 =>
              let c1 := r6.takeWhile Char.isDigit
              let r7 := r6.dropWhile Char.isDigit
              if c1 = [] then none
              else
                let cr := match r7 with
                  | ',' :: r7' =>
                    if r7'.takeWhile Char.isDigit = [] then (none, r7)
                    else (some (r7'.takeWhile Char.isDigit), r7'.dropWhile Char.isDigit)
                  | _ => ((none : Option (List Char)), r7)
                let r9 := cr.2.dropWhile Char.isWhitespace
                if cr.2.takeWhile Char.isWhitespace = [] then none
                else match r9 with
                  | '@' :: '@' :: _ => some (digitsToNat c1, cr.1.map digitsToNat)
                  | _ => none
            | _ => none
      | _ => none
  | _ => none

/-- Model of `line.match(hunkHeaderRegex)`: the regex is unanchored, so search
for the first position at which the pattern matches. -/
def matchHunkHeader : List Char → Option (Nat × Option Nat)
  | [] => none
  | c :: cs =>
    match matchHunkAt (c :: cs) with
    | some r => some r
    | none => matchHunkHeader cs

/-- `extractSuggestedContent`: keep added lines (leading plus stripped, but not
file headers) and context lines (leading space stripped), drop removed lines. -/
def extractSuggestedContent (hunkLines : List (List Char)) : String :=
  String.mk (joinLinesChars (hunkLines.filterMap (fun line =>
    if startsWithChars "+".data line && !(startsWithChars "+++".data line) then
      some (line.drop 1)
    else if startsWithChars " ".data line then some (line.drop 1)
    else none)))

/-- Mutable state of the `parseGitDiff` scanning loop.  JavaScript aliasing
(the current hunk object is pushed into the current file and mutated in place)
is modelled with value semantics: the hunk is materialised when it is flushed. -/
structure DiffParseState where
  finished : List FileChange
  currentFile : Option (String × List DiffHunk)
  currentHunk : Option (Nat × Nat)
  hunkLines : List (List Char)

/-- Save the in-progress hunk into the current file, as the source does at a
file boundary, a hunk boundary and the end of input (requires both a current
file and a current hunk). -/
def flushHunk (st : DiffParseState) : DiffParseState :=
  match st.currentFile, st.currentHunk with
  | some (path, hunks), some (startLine, lineCount) =>
    { st with currentFile := some (path, hunks ++
        [{ startLine := startLine, lineCount := lineCount,
           content := String.mk (joinLinesChars st.hunkLines),
           suggestedContent := extractSuggestedContent st.hunkLines }]) }
  | _, _ => st

/-- Append the completed current file (if any) to the ordered result list. -/
def finishCurrentFile (st : DiffParseState) : List FileChange :=
  st.finished ++ (match st.currentFile with
    | some (p, hunks) => [{ path := p, hunks := hunks }]
    | none => [])

/-- One iteration of the `parseGitDiff` loop over diff lines. -/
def diffLineStep (st : DiffParseState) (line : List Char) : DiffParseState :=
  if startsWithChars "diff --git".data line then
    let st := flushHunk st
    { finished := finishCurrentFile st, currentFile := none, currentHunk := none,
      hunkLines := [] }
  else if startsWithChars "+++ b/".data line then
    let path := line.drop "+++ b/".data.length
    if path ≠ "/dev/null".data then
      { finished := finishCurrentFile st, currentFile := some (String.mk path, []),
        currentHunk := st.currentHunk, hunkLines := st.hunkLines }
    else st
  else if startsWithChars "@@".data line then
    let st := flushHunk st
    match matchHunkHeader line, st.currentFile with
    | some (startLine, count), some _ =>
      { st with currentHunk := some (startLine, count.getD 1), hunkLines := [] }
    | _, _ => st
  else if st.currentHunk.isSome then { st with hunkLines := st.hunkLines ++ [line] }
  else st

/-- `parseGitDiff` applied to the diff text (the stdout of
`git diff --unified=3`, which the source obtains by running git). -/
def parseGitDiff (stdout : String) : List FileChange :=
  let lines := splitOnChar '\n' stdout.data
  let st := lines.foldl diffLineStep
    { finished := [], currentFile := none, currentHunk := none, hunkLines := [] }
  finishCurrentFile (flushHunk st)

/-- `createReviewComments`: one suggestion comment per hunk, anchored at the
hunk's last line. -/
def createReviewComments (changes : List FileChange) (reasoning : String) :
    List ReviewComment :=
  changes.flatMap (fun change => change.hunks.map (fun hunk =>
    { path := change.path,
      line := hunk.startLine + hunk.lineCount - 1,
      body := "**Suggested fix:**\n\n```suggestion\n" ++ hunk.suggestedContent ++
        "\n```\n\n" ++ reasoning }))

/-- A unified diff with a single hunk containing one added line, one removed
line and two context lines. -/
def sampleSingleHunkDiff : String :=
  "diff --git a/foo.txt b/foo.txt\nindex 1234567..89abcde 100644\n--- a/foo.txt\n+++ b/foo.txt\n@@ -1,3 +1,3 @@\n ctx1\n-removed\n+added\n ctx2"

/-- C6: on a unified diff with a single hunk holding one added line, one
removed line and two context lines, parseGitDiff produces exactly one
FileChange with one DiffHunk whose suggestedContent has the context lines and
the added line but not the removed line, and the review comment for the hunk
is anchored at startLine + lineCount - 1. -/
theorem parseGitDiff_single_hunk_scenario :
    parseGitDiff sampleSingleHunkDiff =
      [{ path := "foo.txt",
         hunks := [{ startLine := 1, lineCount := 3,
                     content := " ctx1\n-removed\n+added\n ctx2",
                     suggestedContent := "ctx1\nadded\nctx2" }] }] ∧
    (splitOnChar '\n' ("ctx1\nadded\nctx2" : String).data).contains "ctx1".data = true ∧
    (splitOnChar '\n' ("ctx1\nadded\nctx2" : String).data).contains "added".data = true ∧
    (splitOnChar '\n' ("ctx1\nadded\nctx2" : String).data).contains "ctx2".data = true ∧
    (splitOnChar '\n' ("ctx1\nadded\nctx2" : String).data).contains "removed".data = false ∧
    createReviewComments (parseGitDiff sampleSingleHunkDiff) "agent reasoning" =
      [{ path := "foo.txt", line := 1 + 3 - 1,
         body := "**Suggested fix:**\n\n```suggestion\nctx1\nadded\nctx2\n```\n\nagent reasoning" }] := by
  decide

/-! ## JSON model for the manifest round trip (part_004 write path and
`assertPullRequestPatchManifest`).  `JSON.parse (JSON.stringify v)` is the
identity on JSON values, so serialisation is modelled by the JSON value
itself. -/

/-- A JSON value. -/
inductive JsonValue where
  | null
  | bool (b : Bool)
  | num (n : Int)
  | str (s : String)
  | arr (xs : List JsonValue)
  | obj (fields : List (String × JsonValue))

/-- Look up a key in a JSON object's field list; `none` models JavaScript's
`undefined` for an absent property. -/
def jget : List (String × JsonValue) → String → Option JsonValue
  | [], _ => none
  | (k, v) :: rest, key => if k = key then some v else jget rest key

/-- First-found combinator for `jget` over concatenated field lists. -/
def jfirst (a b : Option JsonValue) : Option JsonValue :=
  match a with
  | some v => some v
  | none => b

/-- An optional JSON object member: absent properties are omitted, exactly as
`JSON.stringify` omits `undefined`-valued fields. -/
def optField (key : String) (v : Option JsonValue) : List (String × JsonValue) :=
  match v with
  | none => []
  | some j => [(key, j)]

@[simp] theorem jget_nil (key : String) : jget [] key = none := rfl

@[simp] theorem jget_cons_eq (k : String) (v : JsonValue)
    (rest : List (String × JsonValue)) : jget ((k, v) :: rest) k = some v := by
  simp [jget]

@[simp] theorem jget_cons_ne (k key : String) (v : JsonValue)
    (rest : List (String × JsonValue)) (h : ¬ k = key) :
    jget ((k, v) :: rest) key = jget rest key := by
  simp [jget, h]

@[simp] theorem jfirst_some (v : JsonValue) (b : Option JsonValue) :
    jfirst (some v) b = some v := rfl

@[simp] theorem jfirst_none (b : Option JsonValue) : jfirst none b = b := rfl

@[simp] theorem jfirst_none_right (a : Option JsonValue) : jfirst a none = a := by
  cases a <;> rfl

@[simp] theorem jget_append (l1 l2 : List (String × JsonValue)) (key : String) :
    jget (l1 ++ l2) key = jfirst (jget l1 key) (jget l2 key) := by
  induction l1 with
  | nil => simp
  | cons hd tl ih =>
    obtain ⟨k, v⟩ := hd
    by_cases h : k = key
    · subst h
      simp [jget]
    · simp [jget, h, ih]

@[simp] theorem jget_optField_eq (k : String) (v : Option JsonValue) :
    jget (optField k v) k = v := by
  cases v <;> simp [optField]

@[simp] theorem jget_optField_ne (k key : String) (v : Option JsonValue)
    (h : ¬ k = key) : jget (optField k v) key = none := by
  cases v <;> simp [optField, h]

/-- Model of the TS `isObject` narrowing applied to a possibly-absent value:
return an object's fields, treating a JavaScript array as an object with no
string keys, and fail with the supplied message otherwise. -/
def objFieldsOf (v : Option JsonValue) (msg : String) :
    Except String (List (String × JsonValue)) :=
  match v with
  | some (JsonValue.obj fs) => Except.ok fs
  | some (JsonValue.arr _) => Except.ok []
  | _ => Except.error msg

/-- Model of `assertString` applied to a possibly-absent member. -/
def assertStringJ (v : Option JsonValue) (msg : String) : Except String Unit :=
  match v with
  | some (JsonValue.str _) => Except.ok ()
  | _ => Except.error msg

/-- Model of `assertNumber` applied to a possibly-absent member (JSON cannot
encode NaN, so the NaN guard of the source never fires on parsed input). -/
def assertNumberJ (v : Option JsonValue) (msg : String) : Except String Unit :=
  match v with
  | some (JsonValue.num _) => Except.ok ()
  | _ => Except.error msg

/-- Model of `assertBoolean` applied to a possibly-absent member. -/
def assertBooleanJ (v : Option JsonValue) (msg : String) : Except String Unit :=
  match v with
  | some (JsonValue.bool _) => Except.ok ()
  | _ => Except.error msg

/-- The `if (x !== undefined) assertString(x, msg)` pattern of the source. -/
def checkOptStringJ (v : Option JsonValue) (msg : String) : Except String Unit :=
  match v with
  | none => Except.ok ()
  | some j => assertStringJ (some j) msg

/-- The `if (x !== undefined) assertNumber(x, msg)` pattern of the source. -/
def checkOptNumberJ (v : Option JsonValue) (msg : String) : Except String Unit :=
  match v with
  | none => Except.ok ()
  | some j => assertNumberJ (some j) msg

/-- The author block check of `assertPullRequestPatchManifest`. -/
def checkAuthorJ (v : Option JsonValue) : Except String Unit :=
  match v with
  | none => Except.ok ()
  | some authorJson => do
    let fs ← objFieldsOf (some authorJson)
      "Manifest pullRequest.author must be an object when provided"
    checkOptStringJ (jget fs "login")
      "Manifest pullRequest.author.login must be a string when provided"
    checkOptNumberJ (jget fs "id")
      "Manifest pullRequest.author.id must be a number when provided"

/-- The `outputKeys` array of the source. -/
def outputKeys : List String :=
  ["generatedPatchPath", "generatedCommentPath", "commandsPath", "llmResponsePath",
   "failureLogsPath", "workflowJobsPath"]

/-- The `for (const key of outputKeys)` loop of the source. -/
def checkOutputKeys : List String → List (String × JsonValue) → Except String Unit
  | [], _ => Except.ok ()
  | key :: rest, fs => do
    checkOptStringJ (jget fs key)
      ("Manifest outputs." ++ key ++ " must be a string when provided")
    checkOutputKeys rest fs

@[simp] theorem exceptOkBind {α β ε : Type} (x : α) (f : α → Except ε β) :
    (Except.ok x >>= f) = f x := rfl

@[simp] theorem assertStringJ_ok (s msg : String) :
    assertStringJ (some (JsonValue.str s)) msg = Except.ok () := rfl

@[simp] theorem assertNumberJ_ok (n : Int) (msg : String) :
    assertNumberJ (some (JsonValue.num n)) msg = Except.ok () := rfl

@[simp] theorem assertBooleanJ_ok (b : Bool) (msg : String) :
    assertBooleanJ (some (JsonValue.bool b)) msg = Except.ok () := rfl

@[simp] theorem checkOptStringJ_map (o : Option String) (msg : String) :
    checkOptStringJ (o.map JsonValue.str) msg = Except.ok () := by
  cases o <;> rfl

@[simp] theorem checkOptNumberJ_map (o : Option Int) (msg : String) :
    checkOptNumberJ (o.map JsonValue.num) msg = Except.ok () := by
  cases o <;> rfl

/-- The `schemaVersion !== PATCH_MANIFEST_SCHEMA_VERSION` strict-inequality
check: any value other than the number 1 is rejected. -/
def checkSchemaVersion (v : Option JsonValue) : Except String Unit :=
  match v with
  | some (JsonValue.num n) =>
    if n ≠ PATCH_MANIFEST_SCHEMA_VERSION then
      Except.error "Unsupported manifest schema version"
    else Except.ok ()
  | _ => Except.error "Unsupported manifest schema version"

@[simp] theorem checkSchemaVersion_ok :
    checkSchemaVersion (some (JsonValue.num PATCH_MANIFEST_SCHEMA_VERSION)) = Except.ok () := rfl

/-- Structural validation of a parsed manifest
(`assertPullRequestPatchManifest`, src/artifacts/pullRequestPatchManifest.ts):
check every required field's presence and type, rejecting on the first
violation with a field-specific message. -/
def assertPullRequestPatchManifest (value : JsonValue) : Except String Unit := do
  let fields ← objFieldsOf (some value) "Manifest must be an object"
  checkSchemaVersion (jget fields "schemaVersion")
  assertStringJ (jget fields "artifactVersion") "Manifest artifactVersion must be a string"
  assertStringJ (jget fields "createdAt") "Manifest createdAt must be a string"
  let workflowRunFields ← objFieldsOf (jget fields "workflowRun")
    "Manifest workflowRun must be an object"
  assertNumberJ (jget workflowRunFields "id") "Manifest workflowRun.id must be a number"
  checkOptNumberJ (jget workflowRunFields "attempt")
    "Manifest workflowRun.attempt must be a number when provided"
  checkOptStringJ (jget workflowRunFields "name")
    "Manifest workflowRun.name must be a string when provided"
  checkOptStringJ (jget workflowRunFields "headBranch")
    "Manifest workflowRun.headBranch must be a string when provided"
  let repositoryFields ← objFieldsOf (jget fields "repository")
    "Manifest repository must be an object"
  assertStringJ (jget repositoryFields "owner") "Manifest repository.owner must be a string"
  assertStringJ (jget repositoryFields "name") "Manifest repository.name must be a string"
  let pullRequestFields ← objFieldsOf (jget fields "pullRequest")
    "Manifest pullRequest must be an object"
  assertNumberJ (jget pullRequestFields "number") "Manifest pullRequest.number must be a number"
  assertStringJ (jget pullRequestFields "headSha") "Manifest pullRequest.headSha must be a string"
  assertStringJ (jget pullRequestFields "headRef") "Manifest pullRequest.headRef must be a string"
  assertStringJ (jget pullRequestFields "baseSha") "Manifest pullRequest.baseSha must be a string"
  assertStringJ (jget pullRequestFields "baseRef") "Manifest pullRequest.baseRef must be a string"
  checkOptStringJ (jget pullRequestFields "htmlUrl")
    "Manifest pullRequest.htmlUrl must be a string when provided"
  checkOptNumberJ (jget pullRequestFields "headRepositoryId")
    "Manifest pullRequest.headRepositoryId must be a number when provided"
  checkOptNumberJ (jget pullRequestFields "baseRepositoryId")
    "Manifest pullRequest.baseRepositoryId must be a number when provided"
  checkAuthorJ (jget pullRequestFields "author")
  let outputsFields ← objFieldsOf (jget fields "outputs") "Manifest outputs must be an object"
  checkOutputKeys outputKeys outputsFields
  let llmFields ← objFieldsOf (jget fields "llm") "Manifest llm must be an object"
  assertStringJ (jget llmFields "inferenceId") "Manifest llm.inferenceId must be a string"
  assertStringJ (jget llmFields "responseId") "Manifest llm.responseId must be a string"
  checkOptStringJ (jget llmFields "episodeId")
    "Manifest llm.episodeId must be a string when provided"
  let tensorZeroFields ← objFieldsOf (jget fields "tensorZero")
    "Manifest tensorZero must be an object"
  assertStringJ (jget tensorZeroFields "diffPatchedMetricName")
    "Manifest tensorZero.diffPatchedMetricName must be a string"
  let metadataFields ← objFieldsOf (jget fields "metadata") "Manifest metadata must be an object"
  assertBooleanJ (jget metadataFields "hasDiff") "Manifest metadata.hasDiff must be a boolean"
  assertBooleanJ (jget metadataFields "hasComment") "Manifest metadata.hasComment must be a boolean"
  assertBooleanJ (jget metadataFields "hasCommands") "Manifest metadata.hasCommands must be a boolean"

/-- JSON serialisation of the author block (`JSON.stringify` omits absent
optional properties). -/
def authorToJson (a : ManifestAuthor) : JsonValue :=
  JsonValue.obj (optField "login" (a.login.map JsonValue.str) ++
    optField "id" (a.id.map JsonValue.num))

/-- JSON serialisation of a manifest value, as written by `writeJsonFile`. -/
def manifestToJson (m : PullRequestPatchManifest) : JsonValue :=
  JsonValue.obj
    ([("schemaVersion", JsonValue.num m.schemaVersion),
      ("artifactVersion", JsonValue.str m.artifactVersion),
      ("createdAt", JsonValue.str m.createdAt),
      ("workflowRun", JsonValue.obj
        ([("id", JsonValue.num m.workflowRun.id)] ++
         optField "attempt" (m.workflowRun.attempt.map JsonValue.num) ++
         optField "name" (m.workflowRun.name.map JsonValue.str) ++
         optField "headBranch" (m.workflowRun.headBranch.map JsonValue.str))),
      ("repository", JsonValue.obj
        [("owner", JsonValue.str m.repository.owner),
         ("name", JsonValue.str m.repository.name)]),
      ("pullRequest", JsonValue.obj
        ([("number", JsonValue.num m.pullRequest.number),
          ("headSha", JsonValue.str m.pullRequest.headSha),
          ("headRef", JsonValue.str m.pullRequest.headRef),
          ("baseSha", JsonValue.str m.pullRequest.baseSha),
          ("baseRef", JsonValue.str m.pullRequest.baseRef)] ++
         optField "htmlUrl" (m.pullRequest.htmlUrl.map JsonValue.str) ++
         optField "headRepositoryId" (m.pullRequest.headRepositoryId.map JsonValue.num) ++
         optField "baseRepositoryId" (m.pullRequest.baseRepositoryId.map JsonValue.num) ++
         optField "author" (m.pullRequest.author.map authorToJson))),
      ("outputs", JsonValue.obj
        (optField "generatedPatchPath" (m.outputs.generatedPatchPath.map JsonValue.str) ++
         optField "generatedCommentPath" (m.outputs.generatedCommentPath.map JsonValue.str) ++
         optField "commandsPath" (m.outputs.commandsPath.map JsonValue.str) ++
         optField "llmResponsePath" (m.outputs.llmResponsePath.map JsonValue.str) ++
         optField "failureLogsPath" (m.outputs.failureLogsPath.map JsonValue.str) ++
         optField "workflowJobsPath" (m.outputs.workflowJobsPath.map JsonValue.str))),
      ("llm", JsonValue.obj
        ([("inferenceId", JsonValue.str m.llm.inferenceId),
          ("responseId", JsonValue.str m.llm.responseId)] ++
         optField "episodeId" (m.llm.episodeId.map JsonValue.str))),
      ("tensorZero", JsonValue.obj
        [("diffPatchedMetricName", JsonValue.str m.tensorZero.diffPatchedMetricName)]),
      ("metadata", JsonValue.obj
        [("hasDiff", JsonValue.bool m.metadata.hasDiff),
         ("hasComment", JsonValue.bool m.metadata.hasComment),
         ("hasCommands", JsonValue.bool m.metadata.hasCommands)])])

/-- The author block of an encoded manifest always validates. -/
theorem checkAuthorJ_encoded (o : Option ManifestAuthor) :
    checkAuthorJ (o.map authorToJson) = Except.ok () := by
  cases o with
  | none => rfl
  | some a => simp [checkAuthorJ, authorToJson, objFieldsOf]

/-- Validation succeeds on the serialisation of every manifest value carrying
the current schema version. -/
theorem assertPullRequestPatchManifest_encoded (m : PullRequestPatchManifest)
    (h : m.schemaVersion = PATCH_MANIFEST_SCHEMA_VERSION) :
    assertPullRequestPatchManifest (manifestToJson m) = Except.ok () := by
  simp [assertPullRequestPatchManifest, manifestToJson, objFieldsOf, h,
    PATCH_MANIFEST_SCHEMA_VERSION, checkSchemaVersion, checkAuthorJ_encoded,
    checkOutputKeys, outputKeys]

/-! ## Artifact write path `writePatchArtifacts` (part_004) -/

/-- Contents of a written artifact file: raw text or serialised JSON. -/
inductive FileContent where
  | text (contents : String)
  | json (value : JsonValue)

/-- `WritePatchArtifactsOptions` (part_004). -/
structure WritePatchArtifactsOptions where
  outputDir : Option String
  manifest : PullRequestPatchManifest
  diff : Option String
  generatedCommentBody : Option String
  commands : Option (List String)

/-- Model of JavaScript `endsWith("\n")`. -/
def endsWithNewline (s : String) : Bool :=
  match s.data.reverse with
  | '\n' :: _ => true
  | _ => false

/-- The `if (diff)` block of `writePatchArtifacts`: write the patch file and
record its path into `outputs.generatedPatchPath`. -/
def diffWrite (manifest : PullRequestPatchManifest) (diff : Option String) :
    PullRequestPatchManifest × List (String × FileContent) :=
  match diff with
  | some d =>
    if d ≠ "" then
      let patchPath := manifest.outputs.generatedPatchPath.getD "generated-patch.diff"
      ({ manifest with outputs := { manifest.outputs with generatedPatchPath := some patchPath } },
       [(patchPath, FileContent.text (if endsWithNewline d then d else d ++ "\n"))])
    else (manifest, [])
  | none => (manifest, [])

/-- The `if (generatedCommentBody)` block of `writePatchArtifacts`. -/
def commentWrite (manifest : PullRequestPatchManifest) (generatedCommentBody : Option String) :
    PullRequestPatchManifest × List (String × FileContent) :=
  match generatedCommentBody with
  | some body =>
    if body ≠ "" then
      let commentPath := manifest.outputs.generatedCommentPath.getD "generated-comment.md"
      ({ manifest with
          outputs := { manifest.outputs with generatedCommentPath := some commentPath } },
       [(commentPath, FileContent.text body)])
    else (manifest, [])
  | none => (manifest, [])

/-- The `if (commands && commands.length > 0)` block of `writePatchArtifacts`. -/
def commandsWrite (manifest : PullRequestPatchManifest) (commands : Option (List String)) :
    PullRequestPatchManifest × List (String × FileContent) :=
  match commands with
  | some cmds =>
    if cmds.length > 0 then
      let commandsPath := manifest.outputs.commandsPath.getD "commands.json"
      ({ manifest with outputs := { manifest.outputs with commandsPath := some commandsPath } },
       [(commandsPath, FileContent.json (JsonValue.arr (cmds.map JsonValue.str)))])
    else (manifest, [])
  | none => (manifest, [])

/-- `writePatchArtifacts` (part_004): write the sibling artifacts, recording
each written path back into the manifest's `outputs` map, then write the
manifest itself last, with its `schemaVersion` forced to the current constant.
The returned list carries the writes in order. -/
def writePatchArtifacts (options : WritePatchArtifactsOptions) :
    List (String × FileContent) :=
  match options.outputDir with
  | none => []
  | some _ =>
    let s1 := diffWrite options.manifest options.diff
    let s2 := commentWrite s1.1 options.generatedCommentBody
    let s3 := commandsWrite s2.1 options.commands
    s1.2 ++ s2.2 ++ s3.2 ++
      [("manifest.json", FileContent.json (manifestToJson
        { s3.1 with schemaVersion := PATCH_MANIFEST_SCHEMA_VERSION }))]

/-- C8: for every manifest with the current schema version, the write path
writes the manifest file last and the written JSON passes
`assertPullRequestPatchManifest` without error. -/
theorem writePatchArtifacts_roundtrip (options : WritePatchArtifactsOptions)
    (dir : String) (hdir : options.outputDir = some dir)
    (hver : options.manifest.schemaVersion = PATCH_MANIFEST_SCHEMA_VERSION) :
    ∃ manifestJson,
      (writePatchArtifacts options).getLast? =
        some ("manifest.json", FileContent.json manifestJson) ∧
      assertPullRequestPatchManifest manifestJson = Except.ok () := by
  refine ⟨manifestToJson
    { (commandsWrite (commentWrite (diffWrite options.manifest options.diff).1
        options.generatedCommentBody).1 options.commands).1 with
      schemaVersion := PATCH_MANIFEST_SCHEMA_VERSION }, ?_, ?_⟩
  · unfold writePatchArtifacts
    simp only [hdir]
    simp
  · exact assertPullRequestPatchManifest_encoded _ rfl

/-- Concrete options used to witness the manifest round trip. -/
def sampleWriteOptions : WritePatchArtifactsOptions := {
  outputDir := some "artifacts"
  manifest := {
    schemaVersion := 1
    artifactVersion := "2024-01"
    createdAt := "2024-01-01T00:00:00Z"
    workflowRun := { id := 555, attempt := some 1, name := some "CI", headBranch := some "f" }
    repository := { owner := "tensorzero", name := "experimental-ci-bot" }
    pullRequest := {
      number := 42
      headSha := "aaa"
      headRef := "feature"
      baseSha := "bbb"
      baseRef := "main"
      htmlUrl := some "https://example.com/pr/42"
      headRepositoryId := some 9
      baseRepositoryId := some 9
      author := some { login := some "octocat", id := some 77 }
    }
    outputs := {
      generatedPatchPath := none
      generatedCommentPath := none
      commandsPath := none
      llmResponsePath := some "llm-response.json"
      failureLogsPath := none
      workflowJobsPath := none
    }
    llm := { inferenceId := "inf-1", responseId := "resp-1", episodeId := some "ep-1" }
    tensorZero := { diffPatchedMetricName := "ci_fix_diff_patched" }
    metadata := { hasDiff := true, hasComment := true, hasCommands := false }
  }
  diff := some "diff --git a/x b/x\n"
  generatedCommentBody := some "Automated fix attempt"
  commands := some ["npm test"]
}

/-- Witness for C8 at a concrete fully-populated manifest. -/
theorem writePatchArtifacts_roundtrip_witness :
    ∃ manifestJson,
      (writePatchArtifacts sampleWriteOptions).getLast? =
        some ("manifest.json", FileContent.json manifestJson) ∧
      assertPullRequestPatchManifest manifestJson = Except.ok () :=
  writePatchArtifacts_roundtrip sampleWriteOptions "artifacts" rfl rfl
